import Mathlib

/-!
Verification of the liveness-verification and biometric-enrollment pipeline of a
face-attendance client.

The development shallowly embeds the pure computational core of the client:

* `calculateEAR`, `detectBlink`, `detectHeadTurn`, `detectMotion`,
  `runLivenessCheck`, `runSimpleLivenessCheck` from `src/utils/livenessDetection.js`;
* `averageDescriptors` from `src/pages/Registration.jsx`;
* the attendance confirmation gate (`markAttendance`, `handleConfirmAttendance`,
  `handleRejectAttendance`) from `src/pages/Attendance.jsx`.

The frame-sampling loops are asynchronous camera I/O; each check is embedded as the
pure function of the per-frame measurements it accumulates (the list of valid
samples), exactly as the source computes them after its sampling loop.  JavaScript
numbers are embedded as exact rationals, except where the source takes square
roots (Euclidean distances), which are embedded in `ℝ`.  JavaScript `undefined`
arising from out-of-bounds array reads is embedded as `Option.none`, with
arithmetic on `undefined` producing `none` (NaN).
-/

namespace FaceAttendance

/-- A 2D image point in pixel coordinates. -/
abbrev Point : Type := ℝ × ℝ

/-- Euclidean distance between two points, as the source computes it:
`Math.sqrt(Math.pow(a.x - b.x, 2) + Math.pow(a.y - b.y, 2))`. -/
noncomputable def edist (p q : Point) : ℝ :=
  Real.sqrt ((p.1 - q.1) ^ 2 + (p.2 - q.2) ^ 2)

/-- Multiply both coordinates of a point by a constant. -/
def scalePoint (c : ℝ) (p : Point) : Point := (c * p.1, c * p.2)

/-- `calculateEAR` (livenessDetection.js): Eye-Aspect-Ratio of one eye from its 6
ordered landmark points `p0 .. p5`. -/
noncomputable def calculateEAR (eyeLandmarks : Fin 6 → Point) : ℝ :=
  let p1 := eyeLandmarks 1
  let p2 := eyeLandmarks 2
  let p3 := eyeLandmarks 3
  let p4 := eyeLandmarks 4
  let p5 := eyeLandmarks 5
  let p0 := eyeLandmarks 0
  let v1 := Real.sqrt ((p2.1 - p4.1) ^ 2 + (p2.2 - p4.2) ^ 2)
  let v2 := Real.sqrt ((p3.1 - p5.1) ^ 2 + (p3.2 - p5.2) ^ 2)
  let h := Real.sqrt ((p1.1 - p0.1) ^ 2 + (p1.2 - p0.2) ^ 2)
  (v1 + v2) / (2 * h)

/-- Result of one liveness sub-check: `{ passed, reason? }`. -/
structure CheckResult where
  passed : Bool
  reason : Option String
deriving DecidableEq, Repr

/-- JS `Math.min(...xs)` over a non-empty array (the empty case is unreachable in
the source; the source guards every use by a length check first). -/
def listMin (l : List ℚ) : ℚ := l.foldl min (l.headD 0)

/-- JS `Math.max(...xs)` over a non-empty array. -/
def listMax (l : List ℚ) : ℚ := l.foldl max (l.headD 0)

/-- `FRAMES` constant of `detectBlink`. -/
def FRAMES_BLINK : ℚ := 12

/-- `BLINK_THRESHOLD` constant of `detectBlink`. -/
def BLINK_THRESHOLD : ℚ := 0.25

/-- Scoring stage of `detectBlink` (livenessDetection.js): the function of the
accumulated `earHistory` — the average-EAR values of exactly those of the 12
sampled frames whose tracking was valid — computed after the sampling loop. -/
def detectBlink (earHistory : List ℚ) : CheckResult :=
  if (earHistory.length : ℚ) < FRAMES_BLINK / 2 then
    { passed := false, reason := some "Lost face tracking during blink check" }
  else
    let minEAR := listMin earHistory
    let maxEAR := listMax earHistory
    let earRange := maxEAR - minEAR
    if minEAR < BLINK_THRESHOLD ∧ earRange > 0.12 then
      { passed := true, reason := none }
    else
      { passed := false, reason := some "No blink detected" }

/-- The two head-turn directions the source passes as the `direction` string. -/
inductive Direction
  | left
  | right
deriving DecidableEq, Repr

/-- The `direction` string interpolated into status and reason messages. -/
def Direction.toString : Direction → String
  | .left => "left"
  | .right => "right"

/-- JS `Number.prototype.toFixed(1)` on a non-negative number: the nearest
multiple of 1/10, ties toward the larger value, rendered with one digit after
the decimal point. -/
def qToFixed1Nonneg (q : ℚ) : String :=
  let n : ℤ := ⌊q * 10 + 1 / 2⌋
  let m : ℕ := n.toNat
  toString (m / 10) ++ "." ++ toString (m % 10)

/-- JS `Number.prototype.toFixed(1)`: format the absolute value, prepending the
sign for negative input. -/
def qToFixed1 (q : ℚ) : String :=
  if q < 0 then "-" ++ qToFixed1Nonneg (-q) else qToFixed1Nonneg q

/-- `FRAMES` constant of `detectHeadTurn` (note `15 / 2 = 7.5` in JS). -/
def FRAMES_TURN : ℚ := 15

/-- `TURN_THRESHOLD` constant of `detectHeadTurn`. -/
def TURN_THRESHOLD : ℚ := 12

/-- Scoring stage of `detectHeadTurn` (livenessDetection.js): the function of the
accumulated `nosePositions` — the nose-tip x-coordinates of exactly those of the
15 sampled frames whose tracking was valid. -/
def detectHeadTurn (direction : Direction) (nosePositions : List ℚ) : CheckResult :=
  if (nosePositions.length : ℚ) < FRAMES_TURN / 2 then
    { passed := false, reason := some "Lost face tracking during head turn" }
  else
    let startX := nosePositions.headD 0
    let endX := nosePositions.getLastD 0
    let movement := endX - startX
    if direction = Direction.left ∧ movement < -TURN_THRESHOLD then
      { passed := true, reason := none }
    else if direction = Direction.right ∧ movement > TURN_THRESHOLD then
      { passed := true, reason := none }
    else
      { passed := false,
        reason := some ("Insufficient " ++ direction.toString ++ " turn (moved " ++
          qToFixed1 movement ++ "px)") }

/-- `FRAMES` constant of `detectMotion`. -/
def FRAMES_MOTION : ℝ := 8

/-- `MOTION_THRESHOLD` constant of `detectMotion`. -/
def MOTION_THRESHOLD : ℝ := 3

/-- Scoring stage of `detectMotion` (livenessDetection.js): the function of the
accumulated `positions` — the nose-tip positions of exactly those of the 8
sampled frames whose tracking was valid.  The loop
`for i in 1 .. positions.length-1` accumulating `dist(positions[i-1], positions[i])`
is embedded as a fold over the consecutive pairs `positions.zip positions.tail`. -/
noncomputable def detectMotion (positions : List Point) : CheckResult :=
  if (positions.length : ℝ) < FRAMES_MOTION / 2 then
    { passed := false, reason := some "Lost face tracking during motion check" }
  else
    let totalMovement :=
      (positions.zip positions.tail).foldl (fun acc pq => acc + edist pq.1 pq.2) 0
    let avgMovement := totalMovement / ((positions.length : ℝ) - 1)
    if avgMovement < MOTION_THRESHOLD then
      { passed := false, reason := some "Static image detected (no motion)" }
    else
      { passed := true, reason := none }

/-- Specification-side reading of the motion statistic: the mean Euclidean
displacement between consecutive valid nose positions. -/
noncomputable def meanDisplacement (positions : List Point) : ℝ :=
  ((positions.zip positions.tail).map (fun pq => edist pq.1 pq.2)).sum /
    ((positions.length : ℝ) - 1)

/-- The three challenge kinds of `runLivenessCheck`. -/
inductive Challenge
  | blink
  | turn_left
  | turn_right
deriving DecidableEq, Repr

/-- The `challenges` array of `runLivenessCheck`. -/
def challengeList : List Challenge := [.blink, .turn_left, .turn_right]

/-- `challenges[Math.floor(r * challenges.length)]`: `none` models the JS
`undefined` of an out-of-range index. -/
noncomputable def chooseChallenge (r : ℝ) : Option Challenge :=
  challengeList.get? (⌊r * (challengeList.length : ℝ)⌋).toNat

/-- The result of the selected challenge in `runLivenessCheck`: the source
compares the drawn string against `blink` and `turn_left`, defaulting to the
right head turn. -/
noncomputable def livenessChallengeResult (r1 : ℝ) (blinkEars : List ℚ)
    (noseXs : List ℚ) : CheckResult :=
  let challenge := chooseChallenge r1
  if challenge = some Challenge.blink then detectBlink blinkEars
  else if challenge = some Challenge.turn_left then detectHeadTurn .left noseXs
  else detectHeadTurn .right noseXs

/-- Final liveness outcome `{ passed, score, reason? }`.  Scores are exact
rationals (every JS float is one). -/
structure LivenessOutcome where
  passed : Bool
  score : ℚ
  reason : Option String
deriving DecidableEq, Repr

/-- `runLivenessCheck` (livenessDetection.js), as the function of the sampled
measurements of its two stages and its two random draws: `r1` is the
`Math.random()` draw selecting the challenge, `r2` the draw producing the final
score `0.7 + r2 * 0.3`. -/
noncomputable def runLivenessCheck (motionPositions : List Point) (r1 : ℝ)
    (blinkEars : List ℚ) (noseXs : List ℚ) (r2 : ℚ) : LivenessOutcome :=
  let motionResult := detectMotion motionPositions
  if motionResult.passed = false then
    { passed := false, score := 0.2, reason := motionResult.reason }
  else
    let challengeResult := livenessChallengeResult r1 blinkEars noseXs
    if challengeResult.passed = false then
      { passed := false, score := 0.4, reason := challengeResult.reason }
    else
      { passed := true, score := 0.7 + r2 * 0.3, reason := none }

/-- A face-api.js landmark set, abstracted to its list of 2D positions; only its
presence or absence matters to the simplified check. -/
structure FaceLandmarks where
  positions : List Point

/-- `runSimpleLivenessCheck` (livenessDetection.js): the check the attendance
flow actually invokes; it only tests whether a face was detected. -/
def runSimpleLivenessCheck (landmarks : Option FaceLandmarks) : LivenessOutcome :=
  match landmarks with
  | none => { passed := false, score := 0, reason := some "No face detected" }
  | some _ => { passed := true, score := 0.8, reason := none }

/-- A 128-dimensional face descriptor, embedded as its list of components. -/
abbrev Descriptor : Type := List ℚ

/-- JS addition where either operand may be `undefined`/NaN (`none`). -/
def jsAdd (a b : Option ℚ) : Option ℚ :=
  match a, b with
  | some x, some y => some (x + y)
  | _, _ => none

/-- JS division of a possibly-NaN numerator by a positive count. -/
def jsDiv (a : Option ℚ) (n : ℕ) : Option ℚ := a.map (fun x => x / (n : ℚ))

/-- `averageDescriptors` (Registration.jsx).  `descriptors[0].length` throws a
`TypeError` on an empty array (modelled as `Except.error`); otherwise, for each
dimension `i < dim`, the inner loop sums `descriptors[j][i]` — an out-of-bounds
read yields `undefined` and poisons the sum to NaN (`none`) — and divides by the
number of descriptors.  No dimension check is performed. -/
def averageDescriptors (descriptors : List Descriptor) :
    Except String (List (Option ℚ)) :=
  match descriptors with
  | [] => .error "TypeError: cannot read length of undefined"
  | d0 :: _ =>
    let dim := d0.length
    .ok ((List.range dim).map (fun i =>
      jsDiv (descriptors.foldl (fun acc d => jsAdd acc (d.get? i)) (some 0))
        descriptors.length))

/-- The identity candidate returned by the match gateway
(`{ name, userId, confidence, distance }` in the attendance flow). -/
structure MatchCandidate where
  name : String
  userId : String
  confidence : ℚ
  distance : ℚ
deriving DecidableEq, Repr

/-- The `result` state of the attendance page: `{ success: true, ...candidate }`
after confirmation, `{ success: false }` after a failed match. -/
inductive MatchResult
  | success (c : MatchCandidate)
  | failure
deriving DecidableEq, Repr

/-- What the `/api/mark-attendance` call produced: a matched candidate
(`response.ok && data.success`), an unsuccessful response, or a thrown network
error. -/
inductive GatewayResponse
  | matched (c : MatchCandidate)
  | noMatch
  | networkError
deriving DecidableEq, Repr

/-- The attendance page's session state: the React state variables of the
Attendance component that carry the algorithmic session (the human-readable
`status` string is progress display only and is not part of the contract),
plus whether the camera stream is held. -/
structure AttendanceState where
  result : Option MatchResult
  pendingAttendance : Option MatchCandidate
  showConfirmModal : Bool
  isChecking : Bool
  cameraOn : Bool
deriving DecidableEq, Repr

/-- The initial state of the attendance page: no result, no pending candidate,
no modal, not checking, camera off. -/
def initialAttendanceState : AttendanceState :=
  { result := none, pendingAttendance := none, showConfirmModal := false,
    isChecking := false, cameraOn := false }

/-- `markAttendance` (Attendance.jsx) as a state transition.  Its awaited
external effects are inputs: the landmark detection feeding
`runSimpleLivenessCheck` (the `runLivenessCheck` call in the source is commented
out), the captured face descriptor, and the match-gateway response.  Camera
acquisition is taken as granted (its failure only changes the status string and
the landmark input).  Every exit path stops the camera before returning. -/
def markAttendance (s : AttendanceState) (modelsLoaded : Bool)
    (landmarks : Option FaceLandmarks) (descriptor : Option Descriptor)
    (response : GatewayResponse) : AttendanceState :=
  if modelsLoaded = false then s
  else
    let s1 : AttendanceState :=
      { s with isChecking := true, result := none, cameraOn := true }
    let livenessResult := runSimpleLivenessCheck landmarks
    if livenessResult.passed = false then
      { s1 with cameraOn := false, isChecking := false }
    else
      match descriptor with
      | none => { s1 with cameraOn := false, isChecking := false }
      | some _ =>
        let s2 := { s1 with cameraOn := false }
        match response with
        | .matched c =>
          { s2 with
            pendingAttendance := some c
            showConfirmModal := true
            isChecking := false }
        | .noMatch => { s2 with result := some .failure, isChecking := false }
        | .networkError => { s2 with isChecking := false }

/-- `handleConfirmAttendance` (Attendance.jsx): finalize the record from the held
candidate (the modal only renders with `pendingAttendance` set, so the `map` is
always over `some`), close the modal, clear the pending candidate. -/
def handleConfirmAttendance (s : AttendanceState) : AttendanceState :=
  { s with
    result := s.pendingAttendance.map MatchResult.success
    showConfirmModal := false
    pendingAttendance := none }

/-- `handleRejectAttendance` (Attendance.jsx): clear everything for a fresh
attempt and make sure the camera is stopped. -/
def handleRejectAttendance (s : AttendanceState) : AttendanceState :=
  { s with
    result := none
    showConfirmModal := false
    pendingAttendance := none
    isChecking := false
    cameraOn := false }

/-! ### Helper lemmas about `listMin` / `listMax` -/

lemma foldl_min_le_init (l : List ℚ) : ∀ a : ℚ, l.foldl min a ≤ a := by
  induction l with
  | nil => intro a; exact le_refl a
  | cons x xs ih =>
    intro a
    exact le_trans (ih (min a x)) (min_le_left a x)

lemma foldl_min_le_mem (l : List ℚ) : ∀ (a x : ℚ), x ∈ l → l.foldl min a ≤ x := by
  induction l with
  | nil => intro a x hx; cases hx
  | cons y ys ih =>
    intro a x hx
    rcases List.mem_cons.mp hx with h | h
    · subst h
      exact le_trans (foldl_min_le_init ys (min a x)) (min_le_right a x)
    · exact ih (min a y) x h

lemma foldl_min_mem_or (l : List ℚ) : ∀ a : ℚ, l.foldl min a = a ∨ l.foldl min a ∈ l := by
  induction l with
  | nil => intro a; left; rfl
  | cons y ys ih =>
    intro a
    rw [List.foldl_cons]
    rcases ih (min a y) with h | h
    · rcases min_choice a y with hm | hm
      · left; rw [h, hm]
      · right; rw [h, hm]; exact List.mem_cons_self y ys
    · right; exact List.mem_cons_of_mem y h

lemma listMin_le_of_mem {l : List ℚ} {x : ℚ} (hx : x ∈ l) : listMin l ≤ x := by
  cases l with
  | nil => cases hx
  | cons y ys => exact foldl_min_le_mem _ _ _ hx

lemma listMin_mem {l : List ℚ} (h : l ≠ []) : listMin l ∈ l := by
  cases l with
  | nil => exact absurd rfl h
  | cons y ys =>
    rcases foldl_min_mem_or (y :: ys) ((y :: ys).headD 0) with h1 | h1
    · rw [listMin, h1]; exact List.mem_cons_self y ys
    · exact h1

lemma init_le_foldl_max (l : List ℚ) : ∀ a : ℚ, a ≤ l.foldl max a := by
  induction l with
  | nil => intro a; exact le_refl a
  | cons x xs ih =>
    intro a
    exact le_trans (le_max_left a x) (ih (max a x))

lemma mem_le_foldl_max (l : List ℚ) : ∀ (a x : ℚ), x ∈ l → x ≤ l.foldl max a := by
  induction l with
  | nil => intro a x hx; cases hx
  | cons y ys ih =>
    intro a x hx
    rcases List.mem_cons.mp hx with h | h
    · subst h
      exact le_trans (le_max_right a x) (init_le_foldl_max ys (max a x))
    · exact ih (max a y) x h

lemma foldl_max_mem_or (l : List ℚ) : ∀ a : ℚ, l.foldl max a = a ∨ l.foldl max a ∈ l := by
  induction l with
  | nil => intro a; left; rfl
  | cons y ys ih =>
    intro a
    rw [List.foldl_cons]
    rcases ih (max a y) with h | h
    · rcases max_choice a y with hm | hm
      · left; rw [h, hm]
      · right; rw [h, hm]; exact List.mem_cons_self y ys
    · right; exact List.mem_cons_of_mem y h

lemma le_listMax_of_mem {l : List ℚ} {x : ℚ} (hx : x ∈ l) : x ≤ listMax l := by
  cases l with
  | nil => cases hx
  | cons y ys => exact mem_le_foldl_max _ _ _ hx

lemma listMax_mem {l : List ℚ} (h : l ≠ []) : listMax l ∈ l := by
  cases l with
  | nil => exact absurd rfl h
  | cons y ys =>
    rcases foldl_max_mem_or (y :: ys) ((y :: ys).headD 0) with h1 | h1
    · rw [listMax, h1]; exact List.mem_cons_self y ys
    · exact h1

/-- `listMin` agrees with Mathlib's `List.minimum` on non-empty lists. -/
lemma listMin_eq_of_minimum {l : List ℚ} {m : ℚ}
    (h : l.minimum = (m : WithTop ℚ)) : listMin l = m := by
  obtain ⟨hmem, hle⟩ := List.minimum_eq_coe_iff.mp h
  have hne : l ≠ [] := by
    intro he
    rw [he] at hmem
    cases hmem
  exact le_antisymm (listMin_le_of_mem hmem) (hle _ (listMin_mem hne))

/-- `listMax` agrees with Mathlib's `List.maximum` on non-empty lists. -/
lemma listMax_eq_of_maximum {l : List ℚ} {m : ℚ}
    (h : l.maximum = (m : WithBot ℚ)) : listMax l = m := by
  obtain ⟨hmem, hle⟩ := List.maximum_eq_coe_iff.mp h
  have hne : l ≠ [] := by
    intro he
    rw [he] at hmem
    cases hmem
  exact le_antisymm (hle _ (listMax_mem hne)) (le_listMax_of_mem hmem)

/-! ### Evaluation lemmas for the check stages -/

/-- With at least half of the 12 blink frames valid, `detectBlink` reduces to the
minimum/range rule. -/
lemma detectBlink_eval (eh : List ℚ) (hlen : 6 ≤ eh.length) :
    detectBlink eh =
      if listMin eh < 0.25 ∧ listMax eh - listMin eh > 0.12
      then ⟨true, none⟩ else ⟨false, some "No blink detected"⟩ := by
  have hcond : ¬((eh.length : ℚ) < FRAMES_BLINK / 2) := by
    have h6 : (6 : ℚ) ≤ (eh.length : ℚ) := by exact_mod_cast hlen
    rw [FRAMES_BLINK]
    norm_num
    linarith
  rw [detectBlink, if_neg hcond]
  rfl

/-- Short blink histories fail with the tracking-loss reason. -/
lemma detectBlink_short (eh : List ℚ) (hlen : eh.length ≤ 5) :
    detectBlink eh = ⟨false, some "Lost face tracking during blink check"⟩ := by
  have hcond : (eh.length : ℚ) < FRAMES_BLINK / 2 := by
    have h5 : (eh.length : ℚ) ≤ 5 := by exact_mod_cast hlen
    rw [FRAMES_BLINK]
    norm_num
    linarith
  rw [detectBlink, if_pos hcond]

/-- With at least 8 of the 15 head-turn frames valid, `detectHeadTurn` reduces to
the displacement rule. -/
lemma detectHeadTurn_eval (d : Direction) (xs : List ℚ) (hlen : 8 ≤ xs.length) :
    detectHeadTurn d xs =
      if d = Direction.left ∧ xs.getLastD 0 - xs.headD 0 < -12 then ⟨true, none⟩
      else if d = Direction.right ∧ xs.getLastD 0 - xs.headD 0 > 12 then ⟨true, none⟩
      else ⟨false, some ("Insufficient " ++ d.toString ++ " turn (moved " ++
        qToFixed1 (xs.getLastD 0 - xs.headD 0) ++ "px)")⟩ := by
  have hcond : ¬((xs.length : ℚ) < FRAMES_TURN / 2) := by
    have h8 : (8 : ℚ) ≤ (xs.length : ℚ) := by exact_mod_cast hlen
    rw [FRAMES_TURN]
    norm_num
    linarith
  rw [detectHeadTurn, if_neg hcond]
  rfl

/-! ### Claim theorems: blink and head-turn -/

/-- Claim C2: on every EAR sequence reaching the blink scoring step (at least 6 of
the 12 sampled frames valid), the blink is confirmed exactly when the minimum EAR
is below 0.25 and the range (maximum minus minimum) exceeds 0.12; any other such
sequence fails with reason "No blink detected".  A sequence with minimum 0.10 and
range 0.20 passes; a constant sequence at 0.30 fails. -/
theorem blink_min_range_rule (eh : List ℚ) (mn mx : ℚ) (hlen : 6 ≤ eh.length)
    (hmn : eh.minimum = (mn : WithTop ℚ)) (hmx : eh.maximum = (mx : WithBot ℚ)) :
    ((detectBlink eh).passed = true ↔ (mn < 0.25 ∧ mx - mn > 0.12))
    ∧ ((detectBlink eh).passed = false →
        (detectBlink eh).reason = some "No blink detected")
    ∧ detectBlink [3/10, 3/10, 1/10, 3/10, 3/10, 3/10] = ⟨true, none⟩
    ∧ detectBlink [3/10, 3/10, 3/10, 3/10, 3/10, 3/10,
        3/10, 3/10, 3/10, 3/10, 3/10, 3/10] = ⟨false, some "No blink detected"⟩ := by
  have e1 : listMin eh = mn := listMin_eq_of_minimum hmn
  have e2 : listMax eh = mx := listMax_eq_of_maximum hmx
  rw [detectBlink_eval eh hlen, e1, e2]
  refine ⟨?_, ?_, ?_, ?_⟩
  · by_cases hc : mn < 0.25 ∧ mx - mn > 0.12 <;> simp [hc]
  · by_cases hc : mn < 0.25 ∧ mx - mn > 0.12 <;> simp [hc]
  · norm_num [detectBlink, listMin, listMax, BLINK_THRESHOLD, FRAMES_BLINK]
  · have h1 : listMin [3/10, 3/10, 3/10, 3/10, 3/10, 3/10,
        3/10, 3/10, 3/10, 3/10, 3/10, 3/10] = 3/10 := by
      simp [listMin, List.foldl_cons, List.foldl_nil, min_self]
    have h2 : listMax [3/10, 3/10, 3/10, 3/10, 3/10, 3/10,
        3/10, 3/10, 3/10, 3/10, 3/10, 3/10] = 3/10 := by
      simp [listMax, List.foldl_cons, List.foldl_nil, max_self]
    rw [detectBlink_eval _ (by norm_num), h1, h2]
    norm_num

/-- Claim C2 witness: the 6-sample sequence `[0.3, 0.3, 0.1, 0.3, 0.3, 0.3]` has
minimum 0.10 and maximum 0.30, and the blink rule instantiates on it. -/
theorem blink_min_range_rule_witness :
    6 ≤ ([3/10, 3/10, 1/10, 3/10, 3/10, 3/10] : List ℚ).length
    ∧ ([3/10, 3/10, 1/10, 3/10, 3/10, 3/10] : List ℚ).minimum = ((1/10 : ℚ) : WithTop ℚ)
    ∧ ([3/10, 3/10, 1/10, 3/10, 3/10, 3/10] : List ℚ).maximum = ((3/10 : ℚ) : WithBot ℚ)
    ∧ ((detectBlink [3/10, 3/10, 1/10, 3/10, 3/10, 3/10]).passed = true ↔
        ((1 : ℚ)/10 < 0.25 ∧ (3 : ℚ)/10 - 1/10 > 0.12)) := by
  have hmn : ([3/10, 3/10, 1/10, 3/10, 3/10, 3/10] : List ℚ).minimum =
      ((1/10 : ℚ) : WithTop ℚ) := by
    rw [List.minimum_eq_coe_iff]
    constructor
    · norm_num
    · intro a ha
      simp only [List.mem_cons, List.not_mem_nil, or_false] at ha
      rcases ha with rfl | rfl | rfl | rfl | rfl | rfl <;> norm_num
  have hmx : ([3/10, 3/10, 1/10, 3/10, 3/10, 3/10] : List ℚ).maximum =
      ((3/10 : ℚ) : WithBot ℚ) := by
    rw [List.maximum_eq_coe_iff]
    constructor
    · norm_num
    · intro a ha
      simp only [List.mem_cons, List.not_mem_nil, or_false] at ha
      rcases ha with rfl | rfl | rfl | rfl | rfl | rfl <;> norm_num
  exact ⟨by norm_num, hmn, hmx,
    (blink_min_range_rule _ _ _ (by norm_num) hmn hmx).1⟩

/-- Claim C6: the blink check tolerates tracking loss up to half of its 12
sampled frames: with exactly 6 valid samples it proceeds to the blink scoring
step (its outcome is one of the two scoring outcomes, never the tracking-loss
failure), while with 5 or fewer valid samples it fails with the tracking-loss
reason without evaluating the blink condition. -/
theorem blink_tracking_tolerance (a b : List ℚ) (h6 : a.length = 6) (h5 : b.length ≤ 5) :
    ((detectBlink a).reason ≠ some "Lost face tracking during blink check")
    ∧ (detectBlink a = ⟨true, none⟩ ∨
        detectBlink a = ⟨false, some "No blink detected"⟩)
    ∧ detectBlink b = ⟨false, some "Lost face tracking during blink check"⟩ := by
  have ha := detectBlink_eval a (le_of_eq h6.symm)
  have hor : detectBlink a = ⟨true, none⟩ ∨
      detectBlink a = ⟨false, some "No blink detected"⟩ := by
    rw [ha]
    by_cases hc : listMin a < 0.25 ∧ listMax a - listMin a > 0.12
    · left; rw [if_pos hc]
    · right; rw [if_neg hc]
  refine ⟨?_, hor, detectBlink_short b h5⟩
  rcases hor with h | h <;> rw [h] <;> simp

/-- Claim C6 witness: instantiation at a 6-sample flat history and an empty
history. -/
theorem blink_tracking_tolerance_witness :
    ((detectBlink [3/10, 3/10, 3/10, 3/10, 3/10, 3/10]).reason ≠
        some "Lost face tracking during blink check")
    ∧ detectBlink ([] : List ℚ) =
        ⟨false, some "Lost face tracking during blink check"⟩ := by
  have h := blink_tracking_tolerance [3/10, 3/10, 3/10, 3/10, 3/10, 3/10] []
    (by norm_num) (by norm_num)
  exact ⟨h.1, h.2.2⟩

/-- Claim C3: with at least 8 of the 15 head-turn frames valid, the check passes
exactly when the net displacement (last valid minus first valid nose x) is below
−12 for a left turn or above +12 for a right turn; on failure the reason reports
the measured displacement.  The sequence 100→80 passes left and fails right with
"-20.0px" reported, and a −5 displacement fails left reporting "-5.0px". -/
theorem headturn_displacement_rule (xs : List ℚ) (hlen : 8 ≤ xs.length) :
    ((detectHeadTurn .left xs).passed = true ↔ xs.getLastD 0 - xs.headD 0 < -12)
    ∧ ((detectHeadTurn .right xs).passed = true ↔ xs.getLastD 0 - xs.headD 0 > 12)
    ∧ (∀ d : Direction, (detectHeadTurn d xs).passed = false →
        (detectHeadTurn d xs).reason =
          some ("Insufficient " ++ d.toString ++ " turn (moved " ++
            qToFixed1 (xs.getLastD 0 - xs.headD 0) ++ "px)"))
    ∧ detectHeadTurn .left [100, 97, 95, 93, 90, 87, 84, 80] = ⟨true, none⟩
    ∧ detectHeadTurn .right [100, 97, 95, 93, 90, 87, 84, 80] =
        ⟨false, some "Insufficient right turn (moved -20.0px)"⟩
    ∧ detectHeadTurn .left [100, 99, 99, 98, 97, 97, 96, 95] =
        ⟨false, some "Insufficient left turn (moved -5.0px)"⟩
    ∧ qToFixed1 (-5) = "-5.0" := by
  refine ⟨?_, ?_, ?_, ?_, ?_, ?_, ?_⟩
  · rw [detectHeadTurn_eval .left xs hlen]
    by_cases hm : xs.getLastD 0 - xs.headD 0 < -12
    · rw [if_pos ⟨rfl, hm⟩]
      exact iff_of_true rfl hm
    · rw [if_neg (fun hand => hm hand.2),
        if_neg (fun hand => Direction.noConfusion hand.1)]
      exact iff_of_false (by simp) hm
  · rw [detectHeadTurn_eval .right xs hlen]
    by_cases hm : xs.getLastD 0 - xs.headD 0 > 12
    · rw [if_neg (fun hand => Direction.noConfusion hand.1), if_pos ⟨rfl, hm⟩]
      exact iff_of_true rfl hm
    · rw [if_neg (fun hand => Direction.noConfusion hand.1),
        if_neg (fun hand => hm hand.2)]
      exact iff_of_false (by simp) hm
  · intro d hfail
    rw [detectHeadTurn_eval d xs hlen] at hfail ⊢
    cases d with
    | left =>
      by_cases hm : xs.getLastD 0 - xs.headD 0 < -12
      · rw [if_pos ⟨rfl, hm⟩] at hfail
        exact absurd hfail (by simp)
      · rw [if_neg (fun hand => hm hand.2),
          if_neg (fun hand => Direction.noConfusion hand.1)] at hfail ⊢
    | right =>
      by_cases hm : xs.getLastD 0 - xs.headD 0 > 12
      · rw [if_neg (fun hand => Direction.noConfusion hand.1),
          if_pos ⟨rfl, hm⟩] at hfail
        exact absurd hfail (by simp)
      · rw [if_neg (fun hand => Direction.noConfusion hand.1),
          if_neg (fun hand => hm hand.2)] at hfail ⊢
  · norm_num [detectHeadTurn, FRAMES_TURN, TURN_THRESHOLD]
  · norm_num [detectHeadTurn, FRAMES_TURN, TURN_THRESHOLD, qToFixed1, qToFixed1Nonneg]
    decide
  · norm_num [detectHeadTurn, FRAMES_TURN, TURN_THRESHOLD, qToFixed1, qToFixed1Nonneg]
    decide
  · norm_num [qToFixed1, qToFixed1Nonneg]
    decide

/-- Claim C3 witness: instantiation at the 8-sample sequence going from 100 to
80. -/
theorem headturn_displacement_rule_witness :
    detectHeadTurn .left [100, 97, 95, 93, 90, 87, 84, 80] = ⟨true, none⟩
    ∧ detectHeadTurn .right [100, 97, 95, 93, 90, 87, 84, 80] =
        ⟨false, some "Insufficient right turn (moved -20.0px)"⟩
    ∧ detectHeadTurn .left [100, 99, 99, 98, 97, 97, 96, 95] =
        ⟨false, some "Insufficient left turn (moved -5.0px)"⟩ := by
  have h := headturn_displacement_rule [100, 97, 95, 93, 90, 87, 84, 80] (by norm_num)
  exact ⟨h.2.2.2.1, h.2.2.2.2.1, h.2.2.2.2.2.1⟩

/-! ### Geometry helpers -/

lemma edist_self_eq (p : Point) : edist p p = 0 := by
  simp [edist]

lemma edist_horiz (a b y : ℝ) : edist (a, y) (b, y) = |a - b| := by
  simp [edist, Real.sqrt_sq_eq_abs]

lemma edist_scale (c : ℝ) (hc : 0 ≤ c) (p q : Point) :
    edist (scalePoint c p) (scalePoint c q) = c * edist p q := by
  unfold edist scalePoint
  have h : (c * p.1 - c * q.1) ^ 2 + (c * p.2 - c * q.2) ^ 2 =
      c ^ 2 * ((p.1 - q.1) ^ 2 + (p.2 - q.2) ^ 2) := by ring
  rw [h, Real.sqrt_mul (sq_nonneg c), Real.sqrt_sq hc]

/-- Claim C8: the EAR computed from the 6 ordered eye landmark points equals
`(dist(p2,p4) + dist(p3,p5)) / (2 * dist(p1,p0))`, and scaling all six landmark
coordinates by a positive constant leaves the EAR unchanged. -/
theorem ear_formula_and_scale_invariance :
    (∀ e : Fin 6 → Point,
      calculateEAR e = (edist (e 2) (e 4) + edist (e 3) (e 5)) / (2 * edist (e 1) (e 0)))
    ∧ (∀ c : ℝ, 0 < c → ∀ e : Fin 6 → Point,
        calculateEAR (fun i => scalePoint c (e i)) = calculateEAR e) := by
  have hform : ∀ e : Fin 6 → Point,
      calculateEAR e = (edist (e 2) (e 4) + edist (e 3) (e 5)) /
        (2 * edist (e 1) (e 0)) := fun e => rfl
  refine ⟨hform, ?_⟩
  intro c hc e
  rw [hform, hform]
  rw [edist_scale c hc.le, edist_scale c hc.le, edist_scale c hc.le]
  have h2 : 2 * (c * edist (e 1) (e 0)) = c * (2 * edist (e 1) (e 0)) := by ring
  have h1 : c * edist (e 2) (e 4) + c * edist (e 3) (e 5) =
      c * (edist (e 2) (e 4) + edist (e 3) (e 5)) := by ring
  rw [h1, h2, mul_div_mul_left _ _ (ne_of_gt hc)]

/-- A fixed eye shape used to instantiate the scale-invariance theorem. -/
def sampleEye : Fin 6 → Point := fun i => ((i : ℝ), 1)

/-- Claim C8 witness: scale-invariance instantiated at the positive constant 2
and a concrete eye shape. -/
theorem ear_formula_and_scale_invariance_witness :
    (0 : ℝ) < 2 ∧
      calculateEAR (fun i => scalePoint 2 (sampleEye i)) = calculateEAR sampleEye :=
  ⟨by norm_num, ear_formula_and_scale_invariance.2 2 (by norm_num) sampleEye⟩

/-! ### The motion check -/

lemma foldl_add_eq (f : Point × Point → ℝ) :
    ∀ (l : List (Point × Point)) (c : ℝ),
      l.foldl (fun acc pq => acc + f pq) c = c + (l.map f).sum := by
  intro l
  induction l with
  | nil => intro c; simp
  | cons x xs ih =>
    intro c
    rw [List.foldl_cons, ih, List.map_cons, List.sum_cons, add_assoc]

/-- With at least half of the 8 motion frames valid, `detectMotion` reduces to
comparing the mean displacement against the 3px threshold. -/
lemma detectMotion_eval (ps : List Point) (hlen : 4 ≤ ps.length) :
    detectMotion ps =
      if meanDisplacement ps < 3
      then ⟨false, some "Static image detected (no motion)"⟩ else ⟨true, none⟩ := by
  have hcond : ¬((ps.length : ℝ) < FRAMES_MOTION / 2) := by
    have h4 : (4 : ℝ) ≤ (ps.length : ℝ) := by exact_mod_cast hlen
    rw [FRAMES_MOTION]
    norm_num
    linarith
  rw [detectMotion, if_neg hcond]
  rw [foldl_add_eq, zero_add]
  rfl

/-- Eight identical nose positions: a static image. -/
def staticPositions : List Point :=
  [(100, 100), (100, 100), (100, 100), (100, 100),
   (100, 100), (100, 100), (100, 100), (100, 100)]

/-- Eight nose positions each 4px apart horizontally. -/
def movingPositions : List Point :=
  [(0, 0), (4, 0), (8, 0), (12, 0), (16, 0), (20, 0), (24, 0), (28, 0)]

lemma meanDisplacement_static : meanDisplacement staticPositions = 0 := by
  simp [staticPositions, meanDisplacement, edist_self_eq]

lemma meanDisplacement_moving : meanDisplacement movingPositions = 4 := by
  simp only [movingPositions, meanDisplacement, List.zip_cons_cons, List.tail_cons,
    List.zip_nil_right, List.map_cons, List.map_nil, List.sum_cons, List.sum_nil,
    List.length_cons, List.length_nil, edist_horiz]
  norm_num [abs_of_nonpos]

lemma detectMotion_static :
    detectMotion staticPositions = ⟨false, some "Static image detected (no motion)"⟩ := by
  rw [detectMotion_eval staticPositions (by norm_num [staticPositions]),
    meanDisplacement_static, if_pos (by norm_num)]

/-- Claim C4: with at least half of the 8 motion frames valid, the motion check
fails with reason "Static image detected (no motion)" exactly when the mean
Euclidean displacement between consecutive valid nose positions is below 3px,
and passes otherwise; 8 identical positions fail, and a sequence with mean
displacement 4px passes. -/
theorem motion_mean_rule (ps : List Point) (hlen : 4 ≤ ps.length) :
    (detectMotion ps = ⟨false, some "Static image detected (no motion)"⟩ ↔
      meanDisplacement ps < 3)
    ∧ (detectMotion ps = ⟨true, none⟩ ↔ ¬ meanDisplacement ps < 3)
    ∧ detectMotion staticPositions = ⟨false, some "Static image detected (no motion)"⟩
    ∧ detectMotion movingPositions = ⟨true, none⟩ := by
  rw [detectMotion_eval ps hlen]
  refine ⟨?_, ?_, detectMotion_static, ?_⟩
  · by_cases hc : meanDisplacement ps < 3
    · rw [if_pos hc]
      exact iff_of_true rfl hc
    · rw [if_neg hc]
      exact iff_of_false (by simp) hc
  · by_cases hc : meanDisplacement ps < 3
    · rw [if_pos hc]
      exact iff_of_false (by simp) (not_not_intro hc)
    · rw [if_neg hc]
      exact iff_of_true rfl hc
  · rw [detectMotion_eval movingPositions (by norm_num [movingPositions]),
      meanDisplacement_moving, if_neg (by norm_num)]

/-- Claim C4 witness: instantiation at the static and moving concrete position
sequences. -/
theorem motion_mean_rule_witness :
    detectMotion staticPositions = ⟨false, some "Static image detected (no motion)"⟩
    ∧ detectMotion movingPositions = ⟨true, none⟩ := by
  have h := motion_mean_rule staticPositions (by norm_num [staticPositions])
  exact ⟨h.2.2.1, h.2.2.2⟩

/-! ### The full liveness check -/

/-- Claim C5: the liveness outcome scores 0.2 exactly on motion failure, 0.4 on
challenge failure, and a value in [0.7, 1.0] when both pass; the `passed` flag is
true exactly when both the motion check and the selected challenge succeed. -/
theorem liveness_outcome_scores (mp : List Point) (r1 : ℝ) (ears noseXs : List ℚ)
    (r2 : ℚ) (h0 : 0 ≤ r2) (h1 : r2 < 1) :
    ((detectMotion mp).passed = false →
      runLivenessCheck mp r1 ears noseXs r2 =
        ⟨false, 0.2, (detectMotion mp).reason⟩)
    ∧ ((detectMotion mp).passed = true →
        (livenessChallengeResult r1 ears noseXs).passed = false →
        runLivenessCheck mp r1 ears noseXs r2 =
          ⟨false, 0.4, (livenessChallengeResult r1 ears noseXs).reason⟩)
    ∧ ((detectMotion mp).passed = true →
        (livenessChallengeResult r1 ears noseXs).passed = true →
        (runLivenessCheck mp r1 ears noseXs r2).passed = true
        ∧ 0.7 ≤ (runLivenessCheck mp r1 ears noseXs r2).score
        ∧ (runLivenessCheck mp r1 ears noseXs r2).score ≤ 1)
    ∧ ((runLivenessCheck mp r1 ears noseXs r2).passed = true ↔
        ((detectMotion mp).passed = true
          ∧ (livenessChallengeResult r1 ears noseXs).passed = true)) := by
  have hscore_lo : (0.7 : ℚ) ≤ 0.7 + r2 * 0.3 := by
    have := mul_nonneg h0 (show (0 : ℚ) ≤ 0.3 by norm_num)
    linarith
  have hscore_hi : (0.7 : ℚ) + r2 * 0.3 ≤ 1 := by
    have := mul_le_mul_of_nonneg_right h1.le (show (0 : ℚ) ≤ 0.3 by norm_num)
    linarith
  by_cases hm : (detectMotion mp).passed
  · by_cases hch : (livenessChallengeResult r1 ears noseXs).passed
    · have hrun : runLivenessCheck mp r1 ears noseXs r2 =
          ⟨true, 0.7 + r2 * 0.3, none⟩ := by
        rw [runLivenessCheck]
        rw [if_neg (by rw [hm]; exact fun h => Bool.noConfusion h)]
        rw [if_neg (by rw [hch]; exact fun h => Bool.noConfusion h)]
      refine ⟨fun h => absurd h (by rw [hm]; exact fun h => Bool.noConfusion h),
        fun _ h => absurd h (by rw [hch]; exact fun h => Bool.noConfusion h),
        fun _ _ => ⟨by rw [hrun], by rw [hrun]; exact hscore_lo,
          by rw [hrun]; exact hscore_hi⟩, ?_⟩
      rw [hrun]
      exact iff_of_true rfl ⟨hm, hch⟩
    · have hch' : (livenessChallengeResult r1 ears noseXs).passed = false :=
        Bool.eq_false_iff.mpr hch
      have hrun : runLivenessCheck mp r1 ears noseXs r2 =
          ⟨false, 0.4, (livenessChallengeResult r1 ears noseXs).reason⟩ := by
        rw [runLivenessCheck]
        rw [if_neg (by rw [hm]; exact fun h => Bool.noConfusion h)]
        rw [if_pos (by rw [hch'])]
      refine ⟨fun h => absurd h (by rw [hm]; exact fun h => Bool.noConfusion h),
        fun _ _ => hrun, fun _ h => absurd h (by rw [hch']; exact Bool.noConfusion),
        ?_⟩
      rw [hrun]
      exact iff_of_false (by simp) (fun hand => by
        rw [hch'] at hand
        exact Bool.noConfusion hand.2)
  · have hm' : (detectMotion mp).passed = false := Bool.eq_false_iff.mpr hm
    have hrun : runLivenessCheck mp r1 ears noseXs r2 =
        ⟨false, 0.2, (detectMotion mp).reason⟩ := by
      rw [runLivenessCheck]
      rw [if_pos (by rw [hm'])]
    refine ⟨fun _ => hrun, fun h => absurd h hm, fun h => absurd h hm, ?_⟩
    rw [hrun]
    exact iff_of_false (by simp) (fun hand => hm hand.1)

/-- Claim C5 witness: on a static motion sequence the outcome is exactly
`{ passed := false, score := 0.2 }` with the motion reason, for the random draw
r2 = 0. -/
theorem liveness_outcome_scores_witness :
    runLivenessCheck staticPositions 0 [] [] 0 =
      ⟨false, 0.2, some "Static image detected (no motion)"⟩ := by
  have h := (liveness_outcome_scores staticPositions 0 [] [] 0 (le_refl 0)
    (by norm_num)).1 (by rw [detectMotion_static])
  rw [h, detectMotion_static]

/-! ### Enrollment averaging -/

lemma foldl_jsAdd_some (i : ℕ) :
    ∀ (ds : List Descriptor) (q : ℚ), (∀ d ∈ ds, i < d.length) →
      ds.foldl (fun acc d => jsAdd acc (d.get? i)) (some q) =
        some (q + (ds.map (fun d => d.getD i 0)).sum) := by
  intro ds
  induction ds with
  | nil => intro q _; simp
  | cons d tl ih =>
    intro q hall
    have hd : i < d.length := hall d (List.mem_cons_self d tl)
    cases hg : d.get? i with
    | none =>
      rw [List.get?_eq_none] at hg
      omega
    | some v =>
      have hgd : d.getD i 0 = v := by
        have h0 : d.getD i 0 = (d.get? i).getD 0 := rfl
        rw [h0, hg]
        rfl
      rw [List.foldl_cons]
      show tl.foldl (fun acc d => jsAdd acc (d.get? i)) (jsAdd (some q) (d.get? i)) = _
      rw [hg]
      show tl.foldl (fun acc d => jsAdd acc (d.get? i)) (some (q + v)) = _
      rw [ih (q + v) (fun d2 h2 => hall d2 (List.mem_cons_of_mem d h2))]
      rw [List.map_cons, List.sum_cons, hgd, add_assoc]

lemma foldl_jsAdd_none (i : ℕ) :
    ∀ (ds : List Descriptor) (acc : Option ℚ),
      ((∃ d ∈ ds, d.length ≤ i) ∨ acc = none) →
      ds.foldl (fun a d => jsAdd a (d.get? i)) acc = none := by
  intro ds
  induction ds with
  | nil =>
    intro acc h
    rcases h with ⟨d, hd, _⟩ | h
    · cases hd
    · exact h
  | cons d tl ih =>
    intro acc h
    rw [List.foldl_cons]
    rcases h with ⟨d2, hd2, hlen⟩ | h
    · rcases List.mem_cons.mp hd2 with rfl | hmem
      · have hg : d2.get? i = none := List.get?_eq_none.mpr hlen
        apply ih
        right
        rw [hg]
        cases acc <;> rfl
      · exact ih _ (Or.inl ⟨d2, hmem, hlen⟩)
    · apply ih
      right
      rw [h]
      cases d.get? i <;> rfl

/-- Claim C7: on a non-empty list of descriptors of equal dimension, the
aggregator returns the per-dimension arithmetic mean
`avg[i] = (Σ_j descriptor_j[i]) / N`; in particular `[1,2,3]`, `[3,2,1]`,
`[2,2,2]` average to exactly `[2,2,2]`. -/
lemma average_mean_aux (ds : List Descriptor) (dim : ℕ)
    (hne : ds ≠ []) (hdim : ∀ d ∈ ds, d.length = dim) :
    averageDescriptors ds = .ok ((List.range dim).map (fun i =>
      some ((ds.map (fun d => d.getD i 0)).sum / (ds.length : ℚ)))) := by
  cases ds with
  | nil => exact absurd rfl hne
  | cons d0 tl =>
    have hd0 : d0.length = dim := hdim d0 (List.mem_cons_self d0 tl)
    rw [averageDescriptors, hd0]
    congr 1
    apply List.map_congr_left
    intro i hi
    have hi' : i < dim := List.mem_range.mp hi
    rw [foldl_jsAdd_some i (d0 :: tl) 0 (fun d hd => by rw [hdim d hd]; exact hi')]
    rw [jsDiv, Option.map_some', zero_add]

lemma three_descriptor_dims :
    ∀ d ∈ [([1, 2, 3] : Descriptor), [3, 2, 1], [2, 2, 2]], d.length = 3 := by
  intro d hd
  simp only [List.mem_cons, List.not_mem_nil, or_false] at hd
  rcases hd with rfl | rfl | rfl <;> rfl

/-- Claim C7: on a non-empty list of descriptors of equal dimension, the
aggregator returns the per-dimension arithmetic mean
`avg[i] = (Σ_j descriptor_j[i]) / N`; in particular `[1,2,3]`, `[3,2,1]`,
`[2,2,2]` average to exactly `[2,2,2]`. -/
theorem average_is_componentwise_mean (ds : List Descriptor) (dim : ℕ)
    (hne : ds ≠ []) (hdim : ∀ d ∈ ds, d.length = dim) :
    averageDescriptors ds = .ok ((List.range dim).map (fun i =>
      some ((ds.map (fun d => d.getD i 0)).sum / (ds.length : ℚ))))
    ∧ averageDescriptors [[1, 2, 3], [3, 2, 1], [2, 2, 2]] =
        .ok [some 2, some 2, some 2] := by
  refine ⟨average_mean_aux ds dim hne hdim, ?_⟩
  rw [average_mean_aux [[1, 2, 3], [3, 2, 1], [2, 2, 2]] 3 (by simp)
    three_descriptor_dims]
  norm_num [List.range_succ]

/-- Claim C7 witness: instantiation at the three concrete descriptors. -/
theorem average_is_componentwise_mean_witness :
    averageDescriptors [[1, 2, 3], [3, 2, 1], [2, 2, 2]] =
      .ok [some 2, some 2, some 2] := by
  have h := average_is_componentwise_mean [[1, 2, 3], [3, 2, 1], [2, 2, 2]] 3
    (by simp) three_descriptor_dims
  exact h.2

/-- Claim C9 counterexample: on the dimension-mismatched input `[[1,2],[3]]` the
aggregator does not signal any error — it returns an output list (whose second
entry is the NaN produced by summing an out-of-bounds `undefined`). -/
theorem average_mismatch_not_rejected :
    averageDescriptors [[1, 2], [3]] = .ok [some 2, none] := by
  norm_num [averageDescriptors, jsAdd, jsDiv, List.range_succ]

/-- Claim C9 amended: the aggregator performs no dimensionality check.  On any
input whose first descriptor is `d0` it returns (never an error) a list of
`d0.length` entries, and every dimension that some descriptor lacks holds the
NaN value `none` instead of a mean — rather than signalling a
dimension-mismatch error. -/
theorem average_no_dimension_check (ds : List Descriptor) (d0 : Descriptor)
    (hhead : ds.head? = some d0) :
    ∃ out, averageDescriptors ds = .ok out ∧ out.length = d0.length ∧
      ∀ i, i < d0.length → (∃ d ∈ ds, d.length ≤ i) → out.get? i = some none := by
  cases ds with
  | nil => cases hhead
  | cons d tl =>
    have hd : d = d0 := by
      rw [List.head?_cons] at hhead
      exact Option.some_injective _ hhead
    subst hd
    refine ⟨_, rfl, ?_, ?_⟩
    · rw [List.length_map, List.length_range]
    · intro i hi hmiss
      rw [List.get?_map, List.get?_range hi]
      show some (jsDiv ((d :: tl).foldl (fun a d2 => jsAdd a (d2.get? i)) (some 0))
        (d :: tl).length) = some none
      rw [foldl_jsAdd_none i (d :: tl) (some 0) (Or.inl hmiss)]
      rfl

/-- Claim C9 amended witness: instantiation at the mismatched input
`[[1,2],[3]]`. -/
theorem average_no_dimension_check_witness :
    ∃ out, averageDescriptors [[1, 2], [3]] = .ok out ∧
      out.length = ([1, 2] : Descriptor).length ∧
      ∀ i, i < ([1, 2] : Descriptor).length →
        (∃ d ∈ [([1, 2] : Descriptor), [3]], d.length ≤ i) → out.get? i = some none :=
  average_no_dimension_check [[1, 2], [3]] [1, 2] rfl

/-! ### The attendance confirmation gate -/

/-- Claim C1: after a successful match the flow holds a pending candidate with
the confirmation modal shown and no recorded result; operator reject returns the
session exactly to the initial state; operator confirm finalizes the result from
the held candidate snapshot (the pure `handleConfirmAttendance` takes no gateway
input, so no re-query is possible) and clears the pending candidate; and no
path of `markAttendance` itself ever records a successful result. -/
theorem confirmation_gate_two_step (s : AttendanceState) (lm : FaceLandmarks)
    (d : Descriptor) (c : MatchCandidate) :
    (markAttendance s true (some lm) (some d) (.matched c)).pendingAttendance = some c
    ∧ (markAttendance s true (some lm) (some d) (.matched c)).showConfirmModal = true
    ∧ (markAttendance s true (some lm) (some d) (.matched c)).result = none
    ∧ handleRejectAttendance (markAttendance s true (some lm) (some d) (.matched c)) =
        initialAttendanceState
    ∧ (handleConfirmAttendance
        (markAttendance s true (some lm) (some d) (.matched c))).result =
          some (.success c)
    ∧ (handleConfirmAttendance
        (markAttendance s true (some lm) (some d) (.matched c))).pendingAttendance = none
    ∧ (∀ (resp : GatewayResponse) (c2 : MatchCandidate),
        (markAttendance s true (some lm) (some d) resp).result ≠
          some (.success c2)) := by
  refine ⟨rfl, rfl, rfl, rfl, rfl, rfl, ?_⟩
  intro resp c2
  cases resp <;> simp [markAttendance, runSimpleLivenessCheck]

/-- Claim C1 witness: the two-step gate instantiated from the initial state with
a concrete matched candidate. -/
theorem confirmation_gate_two_step_witness :
    (markAttendance initialAttendanceState true (some ⟨[]⟩) (some [])
      (.matched ⟨"Alice", "u1", 9/10, 1/10⟩)).pendingAttendance =
        some ⟨"Alice", "u1", 9/10, 1/10⟩
    ∧ handleRejectAttendance (markAttendance initialAttendanceState true (some ⟨[]⟩)
        (some []) (.matched ⟨"Alice", "u1", 9/10, 1/10⟩)) = initialAttendanceState
    ∧ (handleConfirmAttendance (markAttendance initialAttendanceState true (some ⟨[]⟩)
        (some []) (.matched ⟨"Alice", "u1", 9/10, 1/10⟩))).result =
          some (.success ⟨"Alice", "u1", 9/10, 1/10⟩) := by
  have h := confirmation_gate_two_step initialAttendanceState ⟨[]⟩ []
    ⟨"Alice", "u1", 9/10, 1/10⟩
  exact ⟨h.1, h.2.2.2.1, h.2.2.2.2.1⟩

/-- Claim C10: the liveness check invoked by the attendance flow is the
simplified check: it passes with score 0.8 whenever any face is detected and
fails with score 0 and reason "No face detected" only when no landmarks are
found; accordingly the flow aborts (state reset, camera off, nothing pending)
exactly when no face is found, and any detected face — static or not — reaches
the match gateway and the pending state. -/
theorem simple_liveness_in_attendance_flow :
    (∀ lm : FaceLandmarks, runSimpleLivenessCheck (some lm) = ⟨true, 0.8, none⟩)
    ∧ runSimpleLivenessCheck none = ⟨false, 0, some "No face detected"⟩
    ∧ (∀ (s : AttendanceState) (d : Option Descriptor) (resp : GatewayResponse),
        markAttendance s true none d resp =
          { s with result := none, isChecking := false, cameraOn := false })
    ∧ (∀ (s : AttendanceState) (lm : FaceLandmarks) (d : Descriptor)
        (c : MatchCandidate),
        (markAttendance s true (some lm) (some d) (.matched c)).pendingAttendance =
          some c) :=
  ⟨fun _ => rfl, rfl, fun _ _ _ => rfl, fun _ _ _ _ => rfl⟩

/-- Claim C10 witness: the simplified check's two outcomes at concrete inputs. -/
theorem simple_liveness_in_attendance_flow_witness :
    runSimpleLivenessCheck (some ⟨[]⟩) = ⟨true, 0.8, none⟩
    ∧ runSimpleLivenessCheck none = ⟨false, 0, some "No face detected"⟩ :=
  ⟨simple_liveness_in_attendance_flow.1 ⟨[]⟩,
    simple_liveness_in_attendance_flow.2.1⟩

end FaceAttendance
